import Mathlib

deriving instance DecidableEq for Except

/-!
Verification of the dbbox repository (a small SQLite CRUD CLI) against its
natural-language specification.

The development shallowly embeds the two relevant layers:

* the Python code in `src/dbbox/manager.py` and `src/dbbox/cli.py`
  (schema parsing, value-count validation, CSV formatting, stdin import,
  CLI operation dispatch), translated function by function; and
* the fragment of the embedded SQLite engine that the manager delegates to
  (column-order introspection, INTEGER/TEXT type affinity on stored values,
  case-insensitive column-name resolution in `WHERE id = ?`, rowid
  assignment, and the engine's rejection of the malformed statements
  `INSERT INTO t () VALUES ()` and `UPDATE t SET  WHERE ...` that the
  manager builds when a table has no non-id column).

String manipulation is defined structurally over the character list of a
`String` so that every definition evaluates by kernel reduction.
-/

namespace DBBox

/-! ## Character-level string utilities

Each helper mirrors the corresponding Python `str` method (or the SQLite
behaviour named in its comment) on the character list of a string. -/

/-- Python `str.upper` / SQLite upper-casing (ASCII, which is all the
code relies on). -/
def strUpper (s : String) : String := ⟨s.data.map Char.toUpper⟩

/-- Python `str.lower` (ASCII). -/
def strLower (s : String) : String := ⟨s.data.map Char.toLower⟩

/-- Whether `pat` is a prefix of `l`. -/
def startsWithChars : List Char → List Char → Bool
  | [], _ => true
  | _ :: _, [] => false
  | a :: as, b :: bs => a == b && startsWithChars as bs

/-- Python `str.startswith`. -/
def strStarts (s pat : String) : Bool := startsWithChars pat.data s.data

/-- Whether `pat` occurs as a contiguous sublist of `l`. -/
def hasSubChars (pat : List Char) : List Char → Bool
  | [] => pat.isEmpty
  | c :: cs => startsWithChars pat (c :: cs) || hasSubChars pat cs

/-- Python `in` on strings (substring test). -/
def strHas (s pat : String) : Bool := hasSubChars pat.data s.data

/-- Split a character list at every separator character; a list with no
separator yields one piece, so the number of pieces is one more than the
number of separators. -/
def chSplit (sep : Char) : List Char → List (List Char)
  | [] => [[]]
  | x :: xs =>
    let r := chSplit sep xs
    if x == sep then [] :: r
    else
      match r with
      | y :: ys => (x :: y) :: ys
      | [] => [[x]]

/-- Python `str.split(sep)` for a one-character separator. -/
def pySplitOn (sep : Char) (s : String) : List String :=
  (chSplit sep s.data).map (fun l => ⟨l⟩)

/-- Python `str.join`. -/
def pyJoin (sep : String) : List String → String
  | [] => ""
  | [x] => x
  | x :: xs => x ++ sep ++ pyJoin sep xs

/-- The whitespace characters Python `str.strip` / `str.split()` use. -/
def isPyWs (c : Char) : Bool :=
  c == ' ' || c == '\t' || c == '\n' || c == '\x0d' || c == '\x0b' || c == '\x0c'

/-- Python `str.strip()`. -/
def pyStrip (s : String) : String :=
  ⟨(((s.data.dropWhile isPyWs).reverse).dropWhile isPyWs).reverse⟩

/-- Split a character list at every character satisfying `p` (pieces may
be empty). -/
def chSplitP (p : Char → Bool) : List Char → List (List Char)
  | [] => [[]]
  | x :: xs =>
    let r := chSplitP p xs
    if p x then [] :: r
    else
      match r with
      | y :: ys => (x :: y) :: ys
      | [] => [[x]]

/-- Python `str.split()` with no argument: split on runs of whitespace,
discarding empty fields. -/
def pySplitWs (s : String) : List String :=
  ((chSplitP isPyWs s.data).filter (fun l => !l.isEmpty)).map (fun l => ⟨l⟩)

/-- Decimal digit value of a character, if it is a digit. -/
def chDigit (c : Char) : Option Nat :=
  if c.isDigit then some (c.toNat - 48) else none

/-- Parse a nonempty all-digit character list as a natural number. -/
def parseNatChars (l : List Char) : Option Nat :=
  if l.isEmpty then none
  else
    l.foldl
      (fun acc c =>
        match acc, chDigit c with
        | some a, some d => some (a * 10 + d)
        | _, _ => none)
      (some 0)

/-- The integer reading of a string, as SQLite's INTEGER type affinity
applies it to a bound text value (an optional sign followed by digits;
non-integer text is kept as text by the caller). -/
def parseIntChars : List Char → Option Int
  | '-' :: rest => (parseNatChars rest).map (fun n => -(n : Int))
  | l => (parseNatChars l).map (fun n => (n : Int))

/-- Render an integer in decimal (as both Python `str` and SQLite do). -/
def intStr (i : Int) : String :=
  match i with
  | .ofNat n => toString n
  | .negSucc n => "-" ++ toString (n + 1)

/-! ## Data model

Databases are association lists from table name to table; a table is its
introspected column list (creation order), its rows (lists of stored SQL
values), and the next fresh rowid. -/

/-- A stored SQL value: SQLite NULL, INTEGER or TEXT storage class.
(The repository only ever binds strings; the engine applies column type
affinity, so integers appear when a numeric-looking string is stored in an
INTEGER-affinity column, and the auto-assigned rowid is an integer.) -/
inductive SqlVal where
  | null
  | int (n : Int)
  | text (s : String)
deriving DecidableEq

/-- One introspected column, as reported by `PRAGMA table_info`: its name
and its declared type (the manager only consumes these two fields of the
PRAGMA tuple). -/
structure Column where
  name : String
  type : String
deriving DecidableEq

/-- A table: columns in creation order, rows, and the next rowid the
engine will assign (the synthetic id column is AUTOINCREMENT, so the
counter is monotone). -/
structure Table where
  cols : List Column
  rows : List (List SqlVal)
  nextId : Int
deriving DecidableEq

/-- A database: an association list from table name to table. -/
abbrev DB := List (String × Table)

/-- Look a table up by name. -/
def dbFind : DB → String → Option Table
  | [], _ => none
  | (k, v) :: rest, t => if k = t then some v else dbFind rest t

/-- Replace the table stored under a name (used by the mutating
operations; names not present are left alone). -/
def dbSet (db : DB) (t : String) (tab : Table) : DB :=
  db.map (fun p => if p.1 = t then (t, tab) else p)

/-- Error raised by schema parsing in `create_table`
(`ValueError` carrying the offending spec string). -/
inductive SchemaErr where
  | invalidFormat (spec : String)
deriving DecidableEq

/-- Errors surfaced by the data operations: the two `ValueError`s raised
by the manager's own validation (missing table, value-count mismatch) and
the `RuntimeError` wrapping any `sqlite3.Error` from the engine. -/
inductive DbErr where
  | noTable (t : String)
  | countMismatch (expected got : Nat)
  | sqlError
deriving DecidableEq

/-- The spec's taxonomy calls the manager's own `ValueError`s
"ValidationError" and engine failures "OperationError". -/
def DbErr.isValidation : DbErr → Bool
  | .noTable _ => true
  | .countMismatch _ _ => true
  | .sqlError => false

/-! ## Schema codec (`create_table`, manager.py lines 67-80) -/

/-- One spec `"name:TYPE"`: `if ':' not in col_def: raise ...` then
`col_name, col_type = col_def.split(':', 1)` — split at the FIRST colon
only; the remainder (which may itself contain colons) becomes the type. -/
def parseColDef (s : String) : Except SchemaErr (String × String) :=
  if s.data.contains ':' then
    match pySplitOn ':' s with
    | n :: rest => .ok (n, pyJoin ":" rest)
    | [] => .error (.invalidFormat s)
  else .error (.invalidFormat s)

/-- `columns.append(f"{col_name} {col_type.upper()}")`. -/
def renderColDef (p : String × String) : String :=
  p.1 ++ " " ++ strUpper p.2

/-- The parse loop over the schema list: renders each spec in order,
stopping at the first malformed spec. -/
def parseSchemaCols : List String → Except SchemaErr (List String)
  | [] => .ok []
  | s :: rest =>
    match parseColDef s with
    | .error e => .error e
    | .ok p =>
      match parseSchemaCols rest with
      | .error e => .error e
      | .ok cols => .ok (renderColDef p :: cols)

/-- The synthetic primary-key column definition. -/
def idColDef : String := "id INTEGER PRIMARY KEY AUTOINCREMENT"

/-- `if not any(c.lower().startswith('id ') for c in columns):
columns.insert(0, "id INTEGER PRIMARY KEY AUTOINCREMENT")`. -/
def addImplicitId (cols : List String) : List String :=
  if cols.any (fun c => strStarts (strLower c) "id ") then cols
  else idColDef :: cols

/-- The full schema parse performed by `create_table` before it issues
the CREATE TABLE statement. -/
def parseSchema (schema : List String) : Except SchemaErr (List String) :=
  (parseSchemaCols schema).map addImplicitId

/-- How the engine reads one rendered definition `"name TYPE..."` back as
a column (`CREATE TABLE t (name TYPE...)`): a double-quoted or
bracket-quoted identifier extends to its closing delimiter and is
introspected without the quotes, otherwise the first space-separated
token is the column name; the remainder of the definition is the
declared type. (Doubled quotes inside a quoted identifier are not
modeled.) -/
def sqlParseColDef (d : String) : Column :=
  match d.data with
  | '\"' :: rest =>
    ⟨⟨rest.takeWhile (fun c => !(c == '\"'))⟩,
      ⟨((rest.dropWhile (fun c => !(c == '\"'))).drop 1).dropWhile
        (fun c => c == ' ')⟩⟩
  | '[' :: rest =>
    ⟨⟨rest.takeWhile (fun c => !(c == ']'))⟩,
      ⟨((rest.dropWhile (fun c => !(c == ']'))).drop 1).dropWhile
        (fun c => c == ' ')⟩⟩
  | _ =>
    match pySplitOn ' ' d with
    | [] => ⟨d, ""⟩
    | n :: rest => ⟨n, pyJoin " " rest⟩

/-- `create_table`: parse the schema, then
`CREATE TABLE IF NOT EXISTS t (...)` — a no-op when the table already
exists, otherwise a fresh empty table whose introspected column order is
the definition order. -/
def createTable (db : DB) (t : String) (schema : List String) :
    Except SchemaErr DB :=
  match parseSchema schema with
  | .error e => .error e
  | .ok defs =>
    match dbFind db t with
    | some _ => .ok db
    | none => .ok ((t, ⟨defs.map sqlParseColDef, [], 1⟩) :: db)

/-! ## Engine value semantics -/

/-- SQLite type affinities. -/
inductive Affinity where
  | integer
  | text
  | blob
  | real
  | numeric
deriving DecidableEq

/-- SQLite's declared-type-to-affinity rules (SQLite datatype
documentation, "Determination Of Column Affinity"). -/
def typeAffinity (ty : String) : Affinity :=
  let t := strUpper ty
  if strHas t "INT" then .integer
  else if strHas t "CHAR" || strHas t "CLOB" || strHas t "TEXT" then .text
  else if strHas t "BLOB" || t = "" then .blob
  else if strHas t "REAL" || strHas t "FLOA" || strHas t "DOUB" then .real
  else .numeric

/-- Storing a bound string into a column: under a numeric affinity an
integer-looking string is stored as an INTEGER, otherwise the text is
kept. (The repository binds every value as a string.) -/
def applyAffinity (ty : String) (s : String) : SqlVal :=
  match typeAffinity ty with
  | .text => .text s
  | .blob => .text s
  | _ =>
    match parseIntChars s.data with
    | some n => .int n
    | none => .text s

/-- A column is an alias of the engine's rowid (and hence receives the
auto-assigned id) when it is declared `INTEGER PRIMARY KEY`. -/
def isRowidAlias (c : Column) : Bool :=
  strStarts (strUpper c.type) "INTEGER PRIMARY KEY"

/-! ## Manager data operations (manager.py) -/

/-- `table_info`: `PRAGMA table_info(t)` yields the column descriptors in
order, and the empty list when the table does not exist; the function is
total — the Python code additionally catches `sqlite3.OperationalError`
and returns `None`, so no error ever escapes. -/
def tableInfo (db : DB) (t : String) : List Column :=
  match dbFind db t with
  | some tab => tab.cols
  | none => []

/-- `[col[1] for col in info if col[1] != 'id']` — the bound columns:
every introspected column except those named exactly `id` (the Python
comparison is case-sensitive). -/
def nonIdCols (cols : List Column) : List Column :=
  cols.filter (fun c => c.name != "id")

/-- SQLite's keyword list (SQLite documentation, "SQL Keyword List").
The manager interpolates introspected column names into its statements
without quoting, so a column whose name is a keyword (creatable through
a quoted schema spec) makes the generated statement fail to parse.
(SQLite does accept a few of these as identifiers in some positions;
the model treats all of them as rejected, conservatively.) -/
def sqliteKeywords : List String :=
  ["ABORT", "ACTION", "ADD", "AFTER", "ALL", "ALTER", "ALWAYS", "ANALYZE",
   "AND", "AS", "ASC", "ATTACH", "AUTOINCREMENT", "BEFORE", "BEGIN",
   "BETWEEN", "BY", "CASCADE", "CASE", "CAST", "CHECK", "COLLATE",
   "COLUMN", "COMMIT", "CONFLICT", "CONSTRAINT", "CREATE", "CROSS",
   "CURRENT", "CURRENT_DATE", "CURRENT_TIME", "CURRENT_TIMESTAMP",
   "DATABASE", "DEFAULT", "DEFERRABLE", "DEFERRED", "DELETE", "DESC",
   "DETACH", "DISTINCT", "DO", "DROP", "EACH", "ELSE", "END", "ESCAPE",
   "EXCEPT", "EXCLUDE", "EXCLUSIVE", "EXISTS", "EXPLAIN", "FAIL",
   "FILTER", "FIRST", "FOLLOWING", "FOR", "FOREIGN", "FROM", "FULL",
   "GENERATED", "GLOB", "GROUP", "GROUPS", "HAVING", "IF", "IGNORE",
   "IMMEDIATE", "IN", "INDEX", "INDEXED", "INITIALLY", "INNER", "INSERT",
   "INSTEAD", "INTERSECT", "INTO", "IS", "ISNULL", "JOIN", "KEY", "LAST",
   "LEFT", "LIKE", "LIMIT", "MATCH", "MATERIALIZED", "NATURAL", "NO",
   "NOT", "NOTHING", "NOTNULL", "NULL", "NULLS", "OF", "OFFSET", "ON",
   "OR", "ORDER", "OTHERS", "OUTER", "OVER", "PARTITION", "PLAN",
   "PRAGMA", "PRECEDING", "PRIMARY", "QUERY", "RAISE", "RANGE",
   "RECURSIVE", "REFERENCES", "REGEXP", "REINDEX", "RELEASE", "RENAME",
   "REPLACE", "RESTRICT", "RETURNING", "RIGHT", "ROLLBACK", "ROW",
   "ROWS", "SAVEPOINT", "SELECT", "SET", "TABLE", "TEMP", "TEMPORARY",
   "THEN", "TIES", "TO", "TRANSACTION", "TRIGGER", "UNBOUNDED", "UNION",
   "UNIQUE", "UPDATE", "USING", "VACUUM", "VALUES", "VIEW", "VIRTUAL",
   "WHEN", "WHERE", "WINDOW", "WITH", "WITHOUT"]

/-- An introspected column name the manager can safely interpolate
unquoted into `INSERT INTO t (...)` / `UPDATE t SET ... = ?`: a plain
identifier (letter or underscore, then letters, digits, underscores)
that is not a SQLite keyword. Any other introspected name (creatable
through a quoted schema spec such as `"a b":TEXT`) yields a statement
the engine rejects as a syntax error. -/
def plainIdent (s : String) : Bool :=
  match s.data with
  | [] => false
  | c :: cs =>
    (c.isAlpha || c == '_') &&
    cs.all (fun x => x.isAlpha || x.isDigit || x == '_') &&
    !(sqliteKeywords.contains (strUpper s))

/-- A declared type that carries a uniqueness constraint (`UNIQUE`, or
`PRIMARY KEY` — the schema codec forwards the free-form type verbatim,
so a caller can smuggle such constraints in). -/
def uniqueCol (c : Column) : Bool :=
  strHas (strUpper c.type) "UNIQUE" || strHas (strUpper c.type) "PRIMARY"

/-- A declared type carrying a `NOT NULL` constraint. -/
def notNullCol (c : Column) : Bool := strHas (strUpper c.type) "NOT NULL"

/-- Declared-type keywords whose acceptance of a given row the model
does not decide (CHECK and generated-column expressions would need a
full SQL expression evaluator; foreign keys and collations need state
the model does not carry). Statements touching such columns are modeled
conservatively as engine rejections; the contract theorems therefore
restrict their success clauses to tables without them. -/
def undecidedConstraint (ty : String) : Bool :=
  strHas (strUpper ty) "CHECK" || strHas (strUpper ty) "REFERENCES" ||
  strHas (strUpper ty) "GENERATED" || strHas (strUpper ty) "COLLATE" ||
  strHas (strUpper ty) " AS"

/-- Whether any column of the table carries an undecided constraint. -/
def undecidedCols (cols : List Column) : Bool :=
  cols.any (fun c => undecidedConstraint c.type)

/-- Whether a stored value is an INTEGER. -/
def isIntVal : SqlVal → Bool
  | .int _ => true
  | _ => false

/-- Row-local constraint violations of a candidate new row: a NULL in a
`NOT NULL` column (the unbound `id` column of a table whose caller
overrode it to a non-rowid-alias type receives NULL), or a non-integer
value in a rowid-alias column (a "datatype mismatch" in the engine). -/
def rowViolation (cols : List Column) (row : List SqlVal) : Bool :=
  (List.range cols.length).any (fun i =>
    match cols.get? i, row.get? i with
    | some c, some v =>
      (notNullCol c && decide (v = SqlVal.null)) ||
      (isRowidAlias c && !(isIntVal v))
    | _, _ => false)

/-- A UNIQUE / PRIMARY KEY violation: the candidate row stores, in a
unique column, a non-NULL value some existing row already stores there
(NULLs are pairwise distinct for SQLite uniqueness). -/
def uniqueViolation (cols : List Column) (rows : List (List SqlVal))
    (row : List SqlVal) : Bool :=
  (List.range cols.length).any (fun i =>
    match cols.get? i, row.get? i with
    | some c, some v =>
      uniqueCol c && !(decide (v = SqlVal.null)) &&
        rows.any (fun r => decide (r.get? i = some v))
    | _, _ => false)

/-- The tuple the engine stores for
`INSERT INTO t (non-id columns...) VALUES (?...)`: bound columns take the
supplied strings in order with column affinity applied; an unbound `id`
column receives the fresh rowid when it is a rowid alias and NULL
otherwise. -/
def buildRow : List Column → List String → Int → List SqlVal
  | [], _, _ => []
  | c :: cs, vals, rid =>
    if c.name = "id" then
      (if isRowidAlias c then .int rid else .null) :: buildRow cs vals rid
    else
      match vals with
      | [] => []
      | v :: vs => applyAffinity c.type v :: buildRow cs vs rid

/-- `insert`: raises `ValueError` when `table_info` is empty (missing
table) or when the value count differs from the bound-column count.
Otherwise the engine can still reject the generated statement, re-raised
as `RuntimeError`: `INSERT INTO t () VALUES ()` with no bound columns is
a syntax error, as is an unquoted interpolated column name that is not a
plain identifier; a column under an undecided constraint keyword is
rejected conservatively; and the constraints the model does decide
(UNIQUE / PRIMARY KEY, NOT NULL, rowid-alias datatype) are checked
against the candidate row. When the statement is accepted the row is
appended and `cursor.lastrowid` is returned. The returned database is
the (un)changed state — every failure leaves it untouched. -/
def dbInsert (db : DB) (t : String) (vals : List String) :
    Except DbErr Int × DB :=
  match dbFind db t with
  | none => (.error (.noTable t), db)
  | some tab =>
    if tab.cols.isEmpty then (.error (.noTable t), db)
    else
      let columns := nonIdCols tab.cols
      if vals.length ≠ columns.length then
        (.error (.countMismatch columns.length vals.length), db)
      else if columns.isEmpty then (.error .sqlError, db)
      else if !(columns.all (fun c => plainIdent c.name)) then
        (.error .sqlError, db)
      else if undecidedCols tab.cols then (.error .sqlError, db)
      else
        let row := buildRow tab.cols vals tab.nextId
        if rowViolation tab.cols row || uniqueViolation tab.cols tab.rows row then
          (.error .sqlError, db)
        else
          (.ok tab.nextId,
           dbSet db t ⟨tab.cols, tab.rows ++ [row], tab.nextId + 1⟩)

/-- The engine resolves the unquoted identifier `id` in `WHERE id = ?`
case-insensitively against the table's column names. -/
def idColIdx (cols : List Column) : Option Nat :=
  cols.findIdx? (fun c => strLower c.name == "id")

/-- The stored value that the comparison `id = ?` (with an integer
parameter) matches, per SQLite's comparison-affinity rules: TEXT affinity
converts the parameter to text, every other affinity compares it as an
integer. -/
def idTarget (c : Column) (i : Int) : SqlVal :=
  match typeAffinity c.type with
  | .text => .text (intStr i)
  | _ => .int i

/-- Whether a stored row satisfies `WHERE id = ?` for the id column at
index `k`. -/
def rowMatchesId (cols : List Column) (k : Nat) (row : List SqlVal)
    (i : Int) : Bool :=
  match cols.get? k with
  | some c => decide (row.get? k = some (idTarget c i))
  | none => false

/-- `select`: `SELECT * FROM t` (all rows) or
`SELECT * FROM t WHERE id = ?`; a missing table or an unresolvable `id`
column is an engine error (re-raised as `RuntimeError`). -/
def dbSelect (db : DB) (t : String) (rid : Option Int) :
    Except DbErr (List (List SqlVal)) :=
  match dbFind db t with
  | none => .error .sqlError
  | some tab =>
    match rid with
    | none => .ok tab.rows
    | some i =>
      match idColIdx tab.cols with
      | none => .error .sqlError
      | some k => .ok (tab.rows.filter (fun r => rowMatchesId tab.cols k r i))

/-- The effect of `UPDATE t SET c1 = ?, ... WHERE id = ?` on one matched
row: non-id columns take the supplied strings in order (with affinity
applied), the id column keeps its stored value. -/
def updateRow : List Column → List String → List SqlVal → List SqlVal
  | [], _, r => r
  | _ :: _, _, [] => []
  | c :: cs, vals, old :: rest =>
    if c.name = "id" then old :: updateRow cs vals rest
    else
      match vals with
      | [] => old :: updateRow cs [] rest
      | v :: vs => applyAffinity c.type v :: updateRow cs vs rest

/-- `update`: the same missing-table and value-count validation as
`insert`. The engine rejects the generated statement when the SET clause
is empty (`UPDATE t SET  WHERE id = ?`) or a bound column name is not a
plain identifier (both syntax errors), and — conservatively, since only
matched rows are rewritten and constraints are only evaluated on them —
when at least one row matches and a bound column carries a uniqueness or
undecided constraint keyword. Otherwise every row matching the id is
rewritten and `cursor.rowcount` (the number of matched rows) is
returned; a no-match update touches nothing and evaluates no
constraint. -/
def dbUpdate (db : DB) (t : String) (rid : Int) (vals : List String) :
    Except DbErr Nat × DB :=
  match dbFind db t with
  | none => (.error (.noTable t), db)
  | some tab =>
    if tab.cols.isEmpty then (.error (.noTable t), db)
    else
      let columns := nonIdCols tab.cols
      if vals.length ≠ columns.length then
        (.error (.countMismatch columns.length vals.length), db)
      else if columns.isEmpty then (.error .sqlError, db)
      else if !(columns.all (fun c => plainIdent c.name)) then
        (.error .sqlError, db)
      else
        match idColIdx tab.cols with
        | none => (.error .sqlError, db)
        | some k =>
          let cnt := (tab.rows.filter (fun r => rowMatchesId tab.cols k r rid)).length
          if (cnt != 0) && (undecidedCols tab.cols || columns.any uniqueCol) then
            (.error .sqlError, db)
          else
            (.ok cnt,
             dbSet db t
               ⟨tab.cols,
                tab.rows.map (fun r =>
                  if rowMatchesId tab.cols k r rid then updateRow tab.cols vals r
                  else r),
                tab.nextId⟩)

/-- `delete`: `DELETE FROM t WHERE id = ?`; rows matching the id are
removed and `cursor.rowcount` (the number of removed rows) is returned;
a missing table or unresolvable `id` column is an engine error. -/
def dbDelete (db : DB) (t : String) (rid : Int) : Except DbErr Nat × DB :=
  match dbFind db t with
  | none => (.error .sqlError, db)
  | some tab =>
    match idColIdx tab.cols with
    | none => (.error .sqlError, db)
    | some k =>
      (.ok (tab.rows.filter (fun r => rowMatchesId tab.cols k r rid)).length,
       dbSet db t
         ⟨tab.cols,
          tab.rows.filter (fun r => !(rowMatchesId tab.cols k r rid)),
          tab.nextId⟩)

/-! ## Result formatter (cli.py, `format_csv`) -/

/-- Python `str(val)` on a fetched SQL value (only reached for non-NULL
values in `format_csv`, which tests `val is not None` first). -/
def pyStr : SqlVal → String
  | .null => "None"
  | .int n => intStr n
  | .text s => s

/-- Python `val_str.replace('"', '""')`: double every double quote. -/
def escQuotes : List Char → List Char
  | [] => []
  | c :: cs => if c == '\"' then '\"' :: '\"' :: escQuotes cs else c :: escQuotes cs

/-- One CSV field: `""` for NULL; otherwise the rendered value, wrapped
in double quotes with internal double quotes doubled whenever it contains
a comma, a double quote or a newline. -/
def csvField (v : SqlVal) : String :=
  match v with
  | .null => ""
  | v =>
    let s := pyStr v
    if s.data.contains ',' || s.data.contains '\"' || s.data.contains '\n' then
      "\"" ++ (⟨escQuotes s.data⟩ : String) ++ "\""
    else s

/-- `format_csv`: the empty string when there are no rows, otherwise the
comma-joined header of raw column names followed by one comma-joined line
per row, all joined with newlines. -/
def formatCsv (cols : List String) (rows : List (List SqlVal)) : String :=
  if rows.isEmpty then ""
  else
    pyJoin "\n" (pyJoin "," cols :: rows.map (fun r => pyJoin "," (r.map csvField)))

/-! ## Bulk import (cli.py, `--import` branch of `main`, lines 367-416) -/

/-- The fields of one line: the line is stripped, then split on runs of
whitespace. -/
def splitFields (line : String) : List String := pySplitWs (pyStrip line)

/-- Processing of one stdin line, threading the database and the
`(imported_count, error_count)` pair: a blank line is skipped silently, a
line with the wrong field count only increments the error count, and
otherwise the line is inserted (an insert failure is caught and counted
as an error, not re-raised). -/
def importLine (t : String) (exp : Nat) :
    DB × Nat × Nat → String → DB × Nat × Nat
  | (db, imported, errors), line =>
    if pyStrip line = "" then (db, imported, errors)
    else
      let values := splitFields line
      if values.length ≠ exp then (db, imported, errors + 1)
      else
        match dbInsert db t values with
        | (.ok _, db2) => (db2, imported + 1, errors)
        | (.error _, db2) => (db2, imported, errors + 1)

/-- The import loop over the whole input stream: every line is processed
independently, no line aborts the remainder of the stream. -/
def runImport (t : String) (exp : Nat) (lines : List String)
    (st : DB × Nat × Nat) : DB × Nat × Nat :=
  lines.foldl (importLine t exp) st

/-- The final summary printed after the loop. -/
def importSummary (imported errors : Nat) : String :=
  if errors > 0 then
    "✓ Imported " ++ toString imported ++ " row(s), " ++ toString errors ++ " error(s)"
  else "✓ Imported " ++ toString imported ++ " row(s)"

/-! ## CLI operation dispatch (cli.py, `main`, lines 256-419)

The parsed-argument record keeps exactly the fields the dispatch chain
reads, with Python truthiness made explicit: an absent flag is `none` /
`false`; `args.read` is `None`, `True` (bare `-r`) or a string. -/

/-- The CLI flags consulted by the operation dispatch inside `main`. -/
structure CliArgs where
  tables : Bool
  list : Bool
  info : Bool
  dropTable : Bool
  schema : Option (List String)
  create : Option (List String)
  read : Option (Option String)
  update : Option (List String)
  delete : Option Int
  importData : Bool
deriving DecidableEq

/-- The operation `main` resolves to (or `noOperation` for the final
`parser.error("No operation specified. ...")` branch). -/
inductive CliOp where
  | listTables
  | showInfo
  | dropTableOp
  | createTableOp (schema : List String)
  | insertRows (vals : List String)
  | readAll
  | readId (s : String)
  | updateRows (args : List String)
  | deleteRow (i : Int)
  | importRows
  | noOperation
deriving DecidableEq

/-- Python truthiness of an optional list (`if args.create:` etc.):
`None` and the empty list are falsy. -/
def pyTruthyList : Option (List String) → Bool
  | none => false
  | some l => !l.isEmpty

/-- Python truthiness of an optional integer (`elif args.delete:`):
`None` and `0` are falsy. -/
def pyTruthyInt : Option Int → Bool
  | none => false
  | some n => n != 0

/-- The `if/elif` dispatch chain of `main` after a database connection is
open and a table name is present: `--tables`/`--list`, `--info`,
`--drop-table`, `--schema`, then the CRUD chain `-c`, `-r` (tested with
`is not None`), `-u`, `-d` (tested for truthiness), `--import`, and the
final "No operation specified" error. -/
def dispatch (a : CliArgs) : CliOp :=
  if a.tables || a.list then .listTables
  else if a.info then .showInfo
  else if a.dropTable then .dropTableOp
  else if pyTruthyList a.schema then .createTableOp (a.schema.getD [])
  else if pyTruthyList a.create then .insertRows (a.create.getD [])
  else if a.read ≠ none then
    match a.read with
    | some (some s) => .readId s
    | _ => .readAll
  else if pyTruthyList a.update then .updateRows (a.update.getD [])
  else if pyTruthyInt a.delete then .deleteRow (a.delete.getD 0)
  else if a.importData then .importRows
  else .noOperation



/-! ## General helper lemmas -/

lemma chSplit_ne_nil (sep : Char) (l : List Char) : chSplit sep l ≠ [] := by
  induction l with
  | nil => simp [chSplit]
  | cons x xs ih =>
    unfold chSplit
    by_cases h : x == sep
    · simp [h]
    · simp only [h]
      cases hr : chSplit sep xs with
      | nil => simp
      | cons y ys => simp

lemma pyJoin_cons (sep a : String) (l : List String) (h : l ≠ []) :
    pyJoin sep (a :: l) = a ++ sep ++ pyJoin sep l := by
  cases l with
  | nil => exact absurd rfl h
  | cons b bs => rfl

lemma map_id_of_mem {α : Type} (l : List α) (f : α → α) (h : ∀ a ∈ l, f a = a) :
    l.map f = l := by
  induction l with
  | nil => rfl
  | cons a l ih =>
    simp only [List.map_cons, h a (by simp)]
    rw [ih (fun b hb => h b (by simp [hb]))]

lemma filter_nil_of_mem {α : Type} (l : List α) (p : α → Bool)
    (h : ∀ a ∈ l, p a = false) : l.filter p = [] := by
  induction l with
  | nil => rfl
  | cons a l ih =>
    rw [List.filter_cons, h a (by simp)]
    exact ih (fun b hb => h b (by simp [hb]))

lemma filter_self_of_mem {α : Type} (l : List α) (p : α → Bool)
    (h : ∀ a ∈ l, p a = true) : l.filter p = l := by
  induction l with
  | nil => rfl
  | cons a l ih =>
    rw [List.filter_cons, if_pos (h a (by simp))]
    rw [ih (fun b hb => h b (by simp [hb]))]

lemma filter_not_filter {α : Type} (l : List α) (p : α → Bool) :
    (l.filter (fun a => !(p a))).filter p = [] := by
  induction l with
  | nil => rfl
  | cons a l ih =>
    by_cases h : p a
    · simp [List.filter_cons, h, ih]
    · simp only [Bool.not_eq_true] at h
      simp [List.filter_cons, h, ih]

lemma dbFind_mem (db : DB) (t : String) (tab : Table)
    (h : dbFind db t = some tab) : (t, tab) ∈ db := by
  induction db with
  | nil => cases h
  | cons p rest ih =>
    obtain ⟨k, v⟩ := p
    unfold dbFind at h
    by_cases hk : k = t
    · subst hk
      simp at h
      subst h
      simp
    · simp [hk] at h
      simp [ih h]

lemma dbSet_of_not_mem (db : DB) (t : String) (tab : Table)
    (h : t ∉ db.map Prod.fst) : dbSet db t tab = db := by
  induction db with
  | nil => rfl
  | cons p rest ih =>
    obtain ⟨k, v⟩ := p
    simp only [List.map_cons, List.mem_cons] at h
    push_neg at h
    unfold dbSet
    simp only [List.map_cons]
    rw [if_neg (fun hk => h.1 hk.symm)]
    have h2 := ih h.2
    unfold dbSet at h2
    rw [h2]

lemma dbFind_dbSet_self (db : DB) (t : String) (tab v : Table)
    (h : dbFind db t = some tab) : dbFind (dbSet db t v) t = some v := by
  induction db with
  | nil => cases h
  | cons p rest ih =>
    obtain ⟨k, w⟩ := p
    by_cases hk : k = t
    · subst hk
      have hhead : (if ((k, w) : String × Table).1 = k then (k, v) else (k, w)) = (k, v) :=
        if_pos rfl
      simp only [dbSet, List.map_cons, hhead]
      exact if_pos rfl
    · unfold dbFind at h
      rw [if_neg hk] at h
      have h2 := ih h
      simp only [dbSet, List.map_cons] at h2 ⊢
      rw [if_neg hk]
      rw [dbFind, if_neg hk]
      exact h2

lemma dbSet_self (db : DB) (t : String) (tab : Table)
    (hnd : (db.map Prod.fst).Nodup) (h : dbFind db t = some tab) :
    dbSet db t tab = db := by
  induction db with
  | nil => rfl
  | cons p rest ih =>
    obtain ⟨k, v⟩ := p
    simp only [List.map_cons, List.nodup_cons] at hnd
    unfold dbFind at h
    by_cases hk : k = t
    · subst hk
      simp at h
      subst h
      have h2 : dbSet rest k v = rest := dbSet_of_not_mem rest k v hnd.1
      simp only [dbSet, List.map_cons] at h2 ⊢
      simp [h2]
    · simp [hk] at h
      have h2 := ih hnd.2 h
      simp only [dbSet, List.map_cons] at h2 ⊢
      rw [if_neg hk]
      rw [h2]

lemma length_filter_le_one {α β : Type} [DecidableEq β] (l : List α) (f : α → β) (c : β)
    (h : (l.map f).Nodup) :
    (l.filter (fun a => decide (f a = c))).length ≤ 1 := by
  induction l with
  | nil => simp
  | cons a l ih =>
    simp only [List.map_cons, List.nodup_cons, List.mem_map] at h
    by_cases hc : f a = c
    · rw [List.filter_cons, if_pos (by simpa using hc)]
      have hrest : l.filter (fun a => decide (f a = c)) = [] := by
        apply filter_nil_of_mem
        intro b hb
        simp only [decide_eq_false_iff_not]
        intro hbc
        exact h.1 ⟨b, hb, by rw [hbc, hc]⟩
      simp [hrest]
    · rw [List.filter_cons, if_neg (by simpa using hc)]
      exact ih h.2



/-! ## Schema-codec lemmas -/

lemma parseColDef_err (s : String) (h : s.data.contains ':' = false) :
    parseColDef s = .error (.invalidFormat s) := by
  unfold parseColDef
  rw [h]
  simp

lemma parseColDef_ok (s : String) (h : s.data.contains ':' = true) :
    ∃ p, parseColDef s = .ok p := by
  unfold parseColDef
  rw [h]
  cases hs : pySplitOn ':' s with
  | nil =>
    exact absurd (by simpa [pySplitOn] using congrArg List.length hs)
      (by simpa using chSplit_ne_nil ':' s.data)
  | cons n rest => exact ⟨(n, pyJoin ":" rest), by simp⟩

lemma parseSchemaCols_ok (specs : List String)
    (h : ∀ s ∈ specs, s.data.contains ':' = true) :
    ∃ cols, parseSchemaCols specs = .ok cols := by
  induction specs with
  | nil => exact ⟨[], rfl⟩
  | cons a rest ih =>
    obtain ⟨p, hp⟩ := parseColDef_ok a (h a (by simp))
    obtain ⟨cols, hc⟩ := ih (fun s hs => h s (by simp [hs]))
    exact ⟨renderColDef p :: cols, by simp [parseSchemaCols, hp, hc]⟩

lemma parseSchemaCols_err (specs : List String) (s : String)
    (hs : s ∈ specs) (h : s.data.contains ':' = false) :
    ∃ s2, parseSchemaCols specs = .error (.invalidFormat s2) ∧
      s2.data.contains ':' = false ∧ s2 ∈ specs := by
  induction specs with
  | nil => cases hs
  | cons a rest ih =>
    by_cases ha : a.data.contains ':' = true
    · have hne : s ≠ a := fun he => by rw [he, ha] at h; cases h
      have hsr : s ∈ rest := by
        cases hs with
        | head => exact absurd rfl hne
        | tail _ h2 => exact h2
      obtain ⟨p, hp⟩ := parseColDef_ok a ha
      obtain ⟨s2, h1, h2, h3⟩ := ih hsr
      exact ⟨s2, by simp [parseSchemaCols, hp, h1], h2, by simp [h3]⟩
    · rw [Bool.not_eq_true] at ha
      exact ⟨a, by simp [parseSchemaCols, parseColDef_err a ha], ha, by simp⟩

/-- C1 (amended): for every schema list that parses, the rendered column
definitions preserve the input order pointwise; the synthetic id column
is prepended exactly when no rendered definition, lower-cased, starts
with `"id "` (that is, when no spec's column name is `id` or begins with
`id` followed by a space), and in that case the output has exactly one
such id definition. -/
theorem schema_id_prepend (specs cols : List String)
    (h : parseSchemaCols specs = Except.ok cols) :
    List.Forall₂ (fun s c => ∃ p, parseColDef s = Except.ok p ∧ renderColDef p = c)
      specs cols ∧
    ((cols.any (fun c => strStarts (strLower c) "id ")) = false →
      parseSchema specs = Except.ok (idColDef :: cols) ∧
      (idColDef :: cols).countP (fun c => strStarts (strLower c) "id ") = 1) ∧
    ((cols.any (fun c => strStarts (strLower c) "id ")) = true →
      parseSchema specs = Except.ok cols) := by
  refine ⟨?_, ?_, ?_⟩
  · induction specs generalizing cols with
    | nil =>
      rw [parseSchemaCols] at h
      cases h
      exact .nil
    | cons s rest ih =>
      rw [parseSchemaCols] at h
      cases hp : parseColDef s with
      | error e => rw [hp] at h; cases h
      | ok p =>
        rw [hp] at h
        cases hr : parseSchemaCols rest with
        | error e => rw [hr] at h; cases h
        | ok cs =>
          rw [hr] at h
          cases h
          exact .cons ⟨p, hp, rfl⟩ (ih cs hr)
  · intro hany
    refine ⟨by simp [parseSchema, h, Except.map, addImplicitId, hany], ?_⟩
    have h0 : ∀ c ∈ cols, ¬(strStarts (strLower c) "id " = true) := by
      intro c hc hcc
      have : cols.any (fun c => strStarts (strLower c) "id ") = true :=
        List.any_eq_true.mpr ⟨c, hc, hcc⟩
      rw [hany] at this
      cases this
    calc (idColDef :: cols).countP (fun c => strStarts (strLower c) "id ")
        = cols.countP (fun c => strStarts (strLower c) "id ") + 1 :=
          List.countP_cons_of_pos (fun c => strStarts (strLower c) "id ") cols
            (by decide)
      _ = 1 := by rw [List.countP_eq_zero.mpr h0]
  · intro hany
    simp [parseSchema, h, Except.map, addImplicitId, hany]

/-- Witness for C1 at the spec's own example schema. -/
theorem schema_id_prepend_witness :
    parseSchema ["name:TEXT", "age:INTEGER"] =
      Except.ok
        ["id INTEGER PRIMARY KEY AUTOINCREMENT", "name TEXT", "age INTEGER"] ∧
    (["id INTEGER PRIMARY KEY AUTOINCREMENT", "name TEXT",
        "age INTEGER"].countP (fun c => strStarts (strLower c) "id ")) = 1 := by
  have h :=
    (schema_id_prepend ["name:TEXT", "age:INTEGER"] ["name TEXT", "age INTEGER"]
        (by decide)).2.1 (by decide)
  exact ⟨h.1, h.2⟩

/-- C1 counterexample: the spec `"id x:TEXT"` has column name `"id x"`,
which is not `id` under whole-name case-insensitive comparison, yet no
synthetic id column is prepended (the code only checks that the rendered
definition starts with `"id "`). -/
theorem schema_id_prepend_cex :
    strLower "id x" ≠ "id" ∧
    parseColDef "id x:TEXT" = Except.ok ("id x", "TEXT") ∧
    parseSchema ["id x:TEXT"] = Except.ok ["id x TEXT"] ∧
    parseSchema ["id x:TEXT"] ≠ Except.ok (idColDef :: ["id x TEXT"]) := by
  exact ⟨by decide, by decide, by decide, by decide⟩

/-- C5 (amended): a schema list parses successfully exactly when every
spec contains at least one colon; a spec with no colon fails with a
FormatError carrying an offending (colon-free) spec from the list.
(Specs with more than one colon are accepted: the split is at the first
colon only.) -/
theorem schema_colon_contract (specs : List String) :
    ((∀ s ∈ specs, s.data.contains ':' = true) →
      ∃ cols, parseSchema specs = Except.ok cols) ∧
    (∀ s ∈ specs, s.data.contains ':' = false →
      ∃ s2, parseSchema specs = Except.error (.invalidFormat s2) ∧
        s2.data.contains ':' = false ∧ s2 ∈ specs) := by
  constructor
  · intro h
    obtain ⟨cols, hc⟩ := parseSchemaCols_ok specs h
    exact ⟨addImplicitId cols, by simp [parseSchema, hc, Except.map]⟩
  · intro s hs h
    obtain ⟨s2, h1, h2, h3⟩ := parseSchemaCols_err specs s hs h
    exact ⟨s2, by simp [parseSchema, h1, Except.map], h2, h3⟩

/-- Witness for C5: a colon-free spec fails with a FormatError naming it. -/
theorem schema_colon_contract_witness :
    parseSchema ["name:TEXT", "noColon"] =
      Except.error (.invalidFormat "noColon") := by
  obtain ⟨s2, h1, h2, h3⟩ :=
    (schema_colon_contract ["name:TEXT", "noColon"]).2 "noColon" (by simp)
      (by decide)
  have he : s2 = "noColon" := by
    simp only [List.mem_cons, List.mem_singleton] at h3
    rcases h3 with h3 | h3 | h3
    · rw [h3] at h2; cases h2
    · exact h3
    · cases h3
  rw [he] at h1
  exact h1

/-- C5 counterexample: the spec `"a:[b:c]"` contains two colons, yet
table creation accepts it (the extra colon simply becomes part of the
declared type), refuting "each spec must contain exactly one `:`". -/
theorem schema_colon_contract_cex :
    ("a:[b:c]".data.count ':') = 2 ∧
    parseSchema ["a:[b:c]"] = Except.ok [idColDef, "a [B:C]"] ∧
    createTable [] "t2" ["a:[b:c]"] =
      Except.ok
        [("t2",
          ⟨[⟨"id", "INTEGER PRIMARY KEY AUTOINCREMENT"⟩, ⟨"a", "[B:C]"⟩],
            [], 1⟩)] := by
  exact ⟨by decide, by decide, by decide⟩



/-! ## Insert / update / delete contracts -/

/-- C3 (amended): `update` performs the same value-count validation as
`insert`, and an update whose id matches no row returns affected-count 0
without an error and leaves the database (hence every row) unchanged,
provided the generated statement parses: the table must have at least
one non-id column (otherwise the SET clause is empty) whose names are
plain unquoted identifiers (otherwise the unquoted interpolation is a
syntax error). A no-match update rewrites nothing, so no constraint is
evaluated. -/
theorem update_contract (db : DB) (t : String) (rid : Int)
    (vals : List String) (tab : Table) (k : Nat)
    (hf : dbFind db t = some tab)
    (hk : idColIdx tab.cols = some k)
    (hnd : (db.map Prod.fst).Nodup) :
    (vals.length ≠ (nonIdCols tab.cols).length →
      dbUpdate db t rid vals =
        (.error (.countMismatch (nonIdCols tab.cols).length vals.length), db) ∧
      (DbErr.countMismatch (nonIdCols tab.cols).length
          vals.length).isValidation = true) ∧
    (vals.length = (nonIdCols tab.cols).length →
     nonIdCols tab.cols ≠ [] →
     (nonIdCols tab.cols).all (fun c => plainIdent c.name) = true →
     (∀ r ∈ tab.rows, rowMatchesId tab.cols k r rid = false) →
      dbUpdate db t rid vals = (.ok 0, db)) := by
  have hcols : tab.cols ≠ [] := by
    intro h
    rw [h] at hk
    cases hk
  have hne : tab.cols.isEmpty = false := by
    simpa [List.isEmpty_iff] using hcols
  constructor
  · intro hlen
    refine ⟨?_, rfl⟩
    simp [dbUpdate, hf, hne, hlen]
  · intro hlen hnid hplain hall
    have hnid2 : (nonIdCols tab.cols).isEmpty = false := by
      simpa [List.isEmpty_iff] using hnid
    have hfilter : tab.rows.filter (fun r => rowMatchesId tab.cols k r rid) = [] :=
      filter_nil_of_mem _ _ hall
    have hmap :
        tab.rows.map (fun r =>
          if rowMatchesId tab.cols k r rid then updateRow tab.cols vals r
          else r) = tab.rows :=
      map_id_of_mem _ _ (fun r hr => by rw [hall r hr]; simp)
    have hset : dbSet db t ⟨tab.cols, tab.rows, tab.nextId⟩ = db := by
      have : (⟨tab.cols, tab.rows, tab.nextId⟩ : Table) = tab := rfl
      rw [this]
      exact dbSet_self db t tab hnd hf
    simp [dbUpdate, hf, hne, hlen, hnid2, hplain, hk, hfilter, hmap, hset]

/-- Witness for C3: updating a nonexistent id 99 in a one-row `users`
table returns affected-count 0 and leaves the database unchanged. -/
theorem update_contract_witness :
    dbUpdate
        [("users",
          ⟨[⟨"id", "INTEGER PRIMARY KEY AUTOINCREMENT"⟩, ⟨"name", "TEXT"⟩,
              ⟨"age", "INTEGER"⟩], [[.int 1, .text "Alice", .int 30]], 2⟩)]
        "users" 99 ["Jane", "31"] =
      (.ok 0,
       [("users",
         ⟨[⟨"id", "INTEGER PRIMARY KEY AUTOINCREMENT"⟩, ⟨"name", "TEXT"⟩,
             ⟨"age", "INTEGER"⟩], [[.int 1, .text "Alice", .int 30]], 2⟩)]) := by
  exact
    (update_contract
        [("users",
          ⟨[⟨"id", "INTEGER PRIMARY KEY AUTOINCREMENT"⟩, ⟨"name", "TEXT"⟩,
              ⟨"age", "INTEGER"⟩], [[.int 1, .text "Alice", .int 30]], 2⟩)]
        "users" 99 ["Jane", "31"]
        ⟨[⟨"id", "INTEGER PRIMARY KEY AUTOINCREMENT"⟩, ⟨"name", "TEXT"⟩,
            ⟨"age", "INTEGER"⟩], [[.int 1, .text "Alice", .int 30]], 2⟩
        0 (by decide) (by decide) (by decide)).2
      (by decide) (by decide) (by decide) (by decide)

/-- C3 counterexample: two reachable states where an update targeting an
id that matches no row raises instead of returning affected-count 0.
First, a table whose only column is `id`: the count validation passes
with zero values and the engine rejects the malformed
`UPDATE t SET  WHERE id = ?`. Second, a column created through the
quoted spec `"a b":TEXT` (introspected name `a b`): the manager
interpolates it unquoted, and `UPDATE t3 SET a b = ? WHERE id = ?` is a
syntax error even though no row matches. -/
theorem update_contract_cex :
    createTable [] "t" ["id:INTEGER"] =
      Except.ok [("t", ⟨[⟨"id", "INTEGER"⟩], [], 1⟩)] ∧
    ([] : List String).length = (nonIdCols [⟨"id", "INTEGER"⟩]).length ∧
    dbUpdate [("t", ⟨[⟨"id", "INTEGER"⟩], [], 1⟩)] "t" 7 [] =
      (.error .sqlError, [("t", ⟨[⟨"id", "INTEGER"⟩], [], 1⟩)]) ∧
    createTable [] "t3" ["\"a b\":TEXT"] =
      Except.ok
        [("t3",
          ⟨[⟨"id", "INTEGER PRIMARY KEY AUTOINCREMENT"⟩, ⟨"a b", "TEXT"⟩],
            [], 1⟩)] ∧
    dbUpdate
        [("t3",
          ⟨[⟨"id", "INTEGER PRIMARY KEY AUTOINCREMENT"⟩, ⟨"a b", "TEXT"⟩],
            [], 1⟩)] "t3" 5 ["x"] =
      (.error .sqlError,
       [("t3",
         ⟨[⟨"id", "INTEGER PRIMARY KEY AUTOINCREMENT"⟩, ⟨"a b", "TEXT"⟩],
           [], 1⟩)]) := by
  exact ⟨by decide, by decide, by decide, by decide, by decide⟩

/-- C4: deleting an id and then selecting it on the same table returns
the empty result (for every id, matched or not), and a delete whose id
matches no row returns affected-count 0 with the database unchanged,
rather than an error. -/
theorem delete_then_select (db : DB) (t : String) (rid : Int)
    (tab : Table) (k : Nat)
    (hf : dbFind db t = some tab)
    (hk : idColIdx tab.cols = some k)
    (hnd : (db.map Prod.fst).Nodup) :
    (∀ n db2, dbDelete db t rid = (.ok n, db2) →
      dbSelect db2 t (some rid) = .ok []) ∧
    ((∀ r ∈ tab.rows, rowMatchesId tab.cols k r rid = false) →
      dbDelete db t rid = (.ok 0, db)) := by
  constructor
  · intro n db2 h
    simp only [dbDelete, hf, hk] at h
    have hdb2 : db2 =
        dbSet db t
          ⟨tab.cols, tab.rows.filter (fun r => !(rowMatchesId tab.cols k r rid)),
            tab.nextId⟩ := (Prod.ext_iff.mp h.symm).2
    subst hdb2
    simp only [dbSelect, dbFind_dbSet_self db t tab _ hf, hk, filter_not_filter]
  · intro hall
    have hfilter0 :
        tab.rows.filter (fun r => rowMatchesId tab.cols k r rid) = [] :=
      filter_nil_of_mem _ _ hall
    have hfilter1 :
        tab.rows.filter (fun r => !(rowMatchesId tab.cols k r rid)) = tab.rows :=
      filter_self_of_mem _ _ (fun r hr => by rw [hall r hr]; rfl)
    have hset : dbSet db t ⟨tab.cols, tab.rows, tab.nextId⟩ = db := by
      have : (⟨tab.cols, tab.rows, tab.nextId⟩ : Table) = tab := rfl
      rw [this]
      exact dbSet_self db t tab hnd hf
    simp only [dbDelete, hf, hk, hfilter0, hfilter1, hset]
    simp

/-- Witness for C4: deleting row 1 of a one-row `users` table reports one
affected row and a subsequent select of id 1 is empty; deleting the
nonexistent id 99 reports affected-count 0 and changes nothing. -/
theorem delete_then_select_witness :
    dbDelete
        [("users",
          ⟨[⟨"id", "INTEGER PRIMARY KEY AUTOINCREMENT"⟩, ⟨"name", "TEXT"⟩,
              ⟨"age", "INTEGER"⟩], [[.int 1, .text "Alice", .int 30]], 2⟩)]
        "users" 1 =
      (.ok 1,
       [("users",
         ⟨[⟨"id", "INTEGER PRIMARY KEY AUTOINCREMENT"⟩, ⟨"name", "TEXT"⟩,
             ⟨"age", "INTEGER"⟩], [], 2⟩)]) ∧
    dbSelect
        [("users",
          ⟨[⟨"id", "INTEGER PRIMARY KEY AUTOINCREMENT"⟩, ⟨"name", "TEXT"⟩,
              ⟨"age", "INTEGER"⟩], [], 2⟩)]
        "users" (some 1) = .ok [] ∧
    dbDelete
        [("users",
          ⟨[⟨"id", "INTEGER PRIMARY KEY AUTOINCREMENT"⟩, ⟨"name", "TEXT"⟩,
              ⟨"age", "INTEGER"⟩], [[.int 1, .text "Alice", .int 30]], 2⟩)]
        "users" 99 =
      (.ok 0,
       [("users",
         ⟨[⟨"id", "INTEGER PRIMARY KEY AUTOINCREMENT"⟩, ⟨"name", "TEXT"⟩,
             ⟨"age", "INTEGER"⟩], [[.int 1, .text "Alice", .int 30]], 2⟩)]) := by
  refine ⟨by decide, ?_, ?_⟩
  · exact
      (delete_then_select
          [("users",
            ⟨[⟨"id", "INTEGER PRIMARY KEY AUTOINCREMENT"⟩, ⟨"name", "TEXT"⟩,
                ⟨"age", "INTEGER"⟩], [[.int 1, .text "Alice", .int 30]], 2⟩)]
          "users" 1
          ⟨[⟨"id", "INTEGER PRIMARY KEY AUTOINCREMENT"⟩, ⟨"name", "TEXT"⟩,
              ⟨"age", "INTEGER"⟩], [[.int 1, .text "Alice", .int 30]], 2⟩
          0 (by decide) (by decide) (by decide)).1
        1
        [("users",
          ⟨[⟨"id", "INTEGER PRIMARY KEY AUTOINCREMENT"⟩, ⟨"name", "TEXT"⟩,
              ⟨"age", "INTEGER"⟩], [], 2⟩)]
        (by decide)
  · exact
      (delete_then_select
          [("users",
            ⟨[⟨"id", "INTEGER PRIMARY KEY AUTOINCREMENT"⟩, ⟨"name", "TEXT"⟩,
                ⟨"age", "INTEGER"⟩], [[.int 1, .text "Alice", .int 30]], 2⟩)]
          "users" 99
          ⟨[⟨"id", "INTEGER PRIMARY KEY AUTOINCREMENT"⟩, ⟨"name", "TEXT"⟩,
              ⟨"age", "INTEGER"⟩], [[.int 1, .text "Alice", .int 30]], 2⟩
          0 (by decide) (by decide) (by decide)).2
        (by decide)

/-- C6: table introspection is a total function; on a database whose
tables all have at least one column (which `create_table` guarantees), it
returns the empty result exactly for missing tables, so callers can use
it as an existence check — no error is ever raised. -/
theorem table_info_missing (db : DB) (t : String)
    (hwf : ∀ p ∈ db, (Prod.snd p).cols ≠ []) :
    (dbFind db t = none → tableInfo db t = []) ∧
    (tableInfo db t = [] → dbFind db t = none) := by
  constructor
  · intro h
    simp [tableInfo, h]
  · intro h
    cases hf : dbFind db t with
    | none => rfl
    | some tab =>
      simp only [tableInfo, hf] at h
      exact absurd h (hwf (t, tab) (dbFind_mem db t tab hf))

/-- Witness for C6: introspecting a missing table on a one-table
database returns the empty descriptor list. -/
theorem table_info_missing_witness :
    tableInfo
        [("users",
          ⟨[⟨"id", "INTEGER PRIMARY KEY AUTOINCREMENT"⟩, ⟨"name", "TEXT"⟩,
              ⟨"age", "INTEGER"⟩], [], 1⟩)]
        "missing" = [] := by
  exact
    (table_info_missing
        [("users",
          ⟨[⟨"id", "INTEGER PRIMARY KEY AUTOINCREMENT"⟩, ⟨"name", "TEXT"⟩,
              ⟨"age", "INTEGER"⟩], [], 1⟩)]
        "missing" (by decide)).1 (by decide)



/-! ## CSV formatting, point select, bulk import, CLI dispatch -/

/-- C7: CSV formatting emits the comma-joined header of raw column names
followed by one comma-joined line per row; a NULL renders as the empty
field; a field containing a comma, double quote or newline is wrapped in
double quotes with internal double quotes doubled, and any other text
field passes through verbatim; the empty row list yields the empty
string with no header line. -/
theorem format_csv_contract (cols : List String) (rows : List (List SqlVal)) :
    (rows = [] → formatCsv cols rows = "") ∧
    (∀ r rs, rows = r :: rs →
      formatCsv cols rows =
        pyJoin "," cols ++ "\n" ++
          pyJoin "\n" ((r :: rs).map (fun row => pyJoin "," (row.map csvField)))) ∧
    csvField .null = "" ∧
    (∀ s : String,
      (s.data.contains ',' || s.data.contains '\"' || s.data.contains '\n') = true →
        csvField (.text s) = "\"" ++ (⟨escQuotes s.data⟩ : String) ++ "\"") ∧
    (∀ s : String,
      (s.data.contains ',' || s.data.contains '\"' || s.data.contains '\n') = false →
        csvField (.text s) = s) := by
  refine ⟨?_, ?_, rfl, ?_, ?_⟩
  · intro h
    rw [h]
    rfl
  · intro r rs h
    rw [h]
    rw [formatCsv]
    rw [if_neg (by simp)]
    exact pyJoin_cons "\n" _ _ (by simp)
  · intro s h
    simp only [csvField, pyStr]
    rw [if_pos h]
  · intro s h
    simp only [csvField, pyStr]
    rw [if_neg (by simp only [h]; exact Bool.false_ne_true)]

/-- Witness for C7: an empty result formats to the empty string, and a
row holding the field `x,y` (needing quoting) next to a NULL formats to
a quoted field and an empty field under the raw header. -/
theorem format_csv_contract_witness :
    formatCsv ["a", "b"] [] = "" ∧
    formatCsv ["a", "b"] [[.text "x,y", .null]] = "a,b\n\"x,y\"," ∧
    csvField (.text "he said \"hi\"") = "\"he said \"\"hi\"\"\"" := by
  refine ⟨?_, ?_, ?_⟩
  · exact (format_csv_contract ["a", "b"] []).1 rfl
  · exact
      ((format_csv_contract ["a", "b"] [[.text "x,y", .null]]).2.1
          [.text "x,y", .null] [] rfl).trans (by decide)
  · exact
      ((format_csv_contract [] []).2.2.2.1 "he said \"hi\"" (by decide)).trans
        (by decide)

/-- C8 (amended): a select with an id returns exactly the rows whose
stored id-column value matches the parameter; when those stored values
are pairwise distinct — as they are whenever the id column is the
(synthetic or explicit) `INTEGER PRIMARY KEY` the engine populates — at
most one row is returned. A caller who overrides the id column's
constraints at creation can store duplicate ids, making the same select
return more than one row (see the counterexample). -/
theorem select_by_id_contract (db : DB) (t : String) (i : Int)
    (tab : Table) (k : Nat)
    (hf : dbFind db t = some tab)
    (hk : idColIdx tab.cols = some k)
    (hnd : (tab.rows.map (fun r => r.get? k)).Nodup) :
    dbSelect db t (some i) =
      .ok (tab.rows.filter (fun r => rowMatchesId tab.cols k r i)) ∧
    (tab.rows.filter (fun r => rowMatchesId tab.cols k r i)).length ≤ 1 := by
  constructor
  · simp [dbSelect, hf, hk]
  · obtain ⟨c, hc⟩ : ∃ c, tab.cols.get? k = some c := by
      cases hgc : tab.cols.get? k with
      | none =>
        have hlt := (List.findIdx?_eq_some_iff_findIdx_eq.mp hk).1
        have hle := List.get?_eq_none.mp hgc
        omega
      | some c => exact ⟨c, rfl⟩
    have hcong :
        tab.rows.filter (fun r => rowMatchesId tab.cols k r i) =
          tab.rows.filter (fun r => decide (r.get? k = some (idTarget c i))) := by
      apply List.filter_congr
      intro r _
      rw [rowMatchesId, hc]
    rw [hcong]
    exact length_filter_le_one tab.rows (fun r => r.get? k) (some (idTarget c i)) hnd

/-- Witness for C8 on a well-formed `users` table: selecting id 1 among
rows with distinct engine-assigned ids returns exactly one row. -/
theorem select_by_id_contract_witness :
    dbSelect
        [("users",
          ⟨[⟨"id", "INTEGER PRIMARY KEY AUTOINCREMENT"⟩, ⟨"name", "TEXT"⟩,
              ⟨"age", "INTEGER"⟩],
            [[.int 1, .text "Alice", .int 30], [.int 2, .text "Bob", .int 40]],
            3⟩)]
        "users" (some 1) = .ok [[.int 1, .text "Alice", .int 30]] ∧
    ([[SqlVal.int 1, SqlVal.text "Alice", SqlVal.int 30],
        [SqlVal.int 2, SqlVal.text "Bob", SqlVal.int 40]].filter
      (fun r =>
        rowMatchesId
          [⟨"id", "INTEGER PRIMARY KEY AUTOINCREMENT"⟩, ⟨"name", "TEXT"⟩,
            ⟨"age", "INTEGER"⟩] 0 r 1)).length ≤ 1 := by
  have h :=
    select_by_id_contract
      [("users",
        ⟨[⟨"id", "INTEGER PRIMARY KEY AUTOINCREMENT"⟩, ⟨"name", "TEXT"⟩,
            ⟨"age", "INTEGER"⟩],
          [[.int 1, .text "Alice", .int 30], [.int 2, .text "Bob", .int 40]],
          3⟩)]
      "users" 1
      ⟨[⟨"id", "INTEGER PRIMARY KEY AUTOINCREMENT"⟩, ⟨"name", "TEXT"⟩,
          ⟨"age", "INTEGER"⟩],
        [[.int 1, .text "Alice", .int 30], [.int 2, .text "Bob", .int 40]],
        3⟩
      0 (by decide) (by decide) (by decide)
  exact ⟨h.1.trans (by decide), h.2⟩

/-- C8 counterexample: creating the table with the caller-supplied column
`ID:INTEGER` (accepted as the table's id column, since the check is on
the rendered definition) leaves `id` without a uniqueness constraint and
bound positionally like any other column; after inserting `5` twice,
`SELECT * FROM t WHERE id = 5` returns two rows — the engine resolves
`id` to the column `ID` case-insensitively and INTEGER affinity stores
both bound `"5"` values as the integer 5. -/
theorem select_by_id_contract_cex :
    createTable [] "t" ["ID:INTEGER", "v:TEXT"] =
      Except.ok [("t", ⟨[⟨"ID", "INTEGER"⟩, ⟨"v", "TEXT"⟩], [], 1⟩)] ∧
    dbInsert [("t", ⟨[⟨"ID", "INTEGER"⟩, ⟨"v", "TEXT"⟩], [], 1⟩)] "t"
        ["5", "a"] =
      (.ok 1, [("t", ⟨[⟨"ID", "INTEGER"⟩, ⟨"v", "TEXT"⟩], [[.int 5, .text "a"]], 2⟩)]) ∧
    dbInsert [("t", ⟨[⟨"ID", "INTEGER"⟩, ⟨"v", "TEXT"⟩], [[.int 5, .text "a"]], 2⟩)]
        "t" ["5", "b"] =
      (.ok 2,
       [("t",
         ⟨[⟨"ID", "INTEGER"⟩, ⟨"v", "TEXT"⟩],
           [[.int 5, .text "a"], [.int 5, .text "b"]], 3⟩)]) ∧
    dbSelect
        [("t",
          ⟨[⟨"ID", "INTEGER"⟩, ⟨"v", "TEXT"⟩],
            [[.int 5, .text "a"], [.int 5, .text "b"]], 3⟩)]
        "t" (some 5) = .ok [[.int 5, .text "a"], [.int 5, .text "b"]] := by
  exact ⟨by decide, by decide, by decide, by decide⟩



/-- C9: the bulk import processes lines independently — processing a
stream is the fold of the per-line step, so one line never aborts the
rest; a blank line leaves state and counts unchanged; a non-blank line
whose whitespace-split field count differs from the expected non-id
column count only increments the error count; a valid line performs the
insert and increments the imported count; and the final summary string
reports both counts. -/
theorem bulk_import_contract (t : String) (exp : Nat) (db : DB)
    (imported errors : Nat) (line : String) (lines : List String) :
    (runImport t exp (line :: lines) (db, imported, errors) =
      runImport t exp lines (importLine t exp (db, imported, errors) line)) ∧
    (pyStrip line = "" →
      importLine t exp (db, imported, errors) line = (db, imported, errors)) ∧
    (pyStrip line ≠ "" → (splitFields line).length ≠ exp →
      importLine t exp (db, imported, errors) line = (db, imported, errors + 1)) ∧
    (∀ rid db2, pyStrip line ≠ "" → (splitFields line).length = exp →
      dbInsert db t (splitFields line) = (.ok rid, db2) →
        importLine t exp (db, imported, errors) line = (db2, imported + 1, errors)) ∧
    (errors > 0 →
      importSummary imported errors =
        "✓ Imported " ++ toString imported ++ " row(s), " ++ toString errors ++
          " error(s)") := by
  refine ⟨rfl, ?_, ?_, ?_, ?_⟩
  · intro h
    simp [importLine, h]
  · intro h1 h2
    simp [importLine, h1, h2]
  · intro rid db2 h1 h2 h3
    simp [importLine, h1, h2, h3]
  · intro h
    simp [importSummary, h]

/-- Witness for C9: the spec's own scenario — importing the lines
`"Alice 30"`, `""`, `"Bob"` into the two-non-id-column `users` table
imports one row, skips the blank line silently, counts the short line as
one error, and the summary reads `✓ Imported 1 row(s), 1 error(s)`. -/
theorem bulk_import_contract_witness :
    importLine "users" 2
        ([("users",
          ⟨[⟨"id", "INTEGER PRIMARY KEY AUTOINCREMENT"⟩, ⟨"name", "TEXT"⟩,
              ⟨"age", "INTEGER"⟩], [[.int 1, .text "Alice", .int 30]], 2⟩)],
          1, 0) "" =
      ([("users",
        ⟨[⟨"id", "INTEGER PRIMARY KEY AUTOINCREMENT"⟩, ⟨"name", "TEXT"⟩,
            ⟨"age", "INTEGER"⟩], [[.int 1, .text "Alice", .int 30]], 2⟩)],
        1, 0) ∧
    importLine "users" 2
        ([("users",
          ⟨[⟨"id", "INTEGER PRIMARY KEY AUTOINCREMENT"⟩, ⟨"name", "TEXT"⟩,
              ⟨"age", "INTEGER"⟩], [[.int 1, .text "Alice", .int 30]], 2⟩)],
          1, 0) "Bob" =
      ([("users",
        ⟨[⟨"id", "INTEGER PRIMARY KEY AUTOINCREMENT"⟩, ⟨"name", "TEXT"⟩,
            ⟨"age", "INTEGER"⟩], [[.int 1, .text "Alice", .int 30]], 2⟩)],
        1, 1) ∧
    runImport "users" 2 ["Alice 30", "", "Bob"]
        ([("users",
          ⟨[⟨"id", "INTEGER PRIMARY KEY AUTOINCREMENT"⟩, ⟨"name", "TEXT"⟩,
              ⟨"age", "INTEGER"⟩], [], 1⟩)], 0, 0) =
      ([("users",
        ⟨[⟨"id", "INTEGER PRIMARY KEY AUTOINCREMENT"⟩, ⟨"name", "TEXT"⟩,
            ⟨"age", "INTEGER"⟩], [[.int 1, .text "Alice", .int 30]], 2⟩)],
        1, 1) ∧
    importSummary 1 1 = "✓ Imported 1 row(s), 1 error(s)" := by
  refine ⟨?_, ?_, ?_, ?_⟩
  · exact
      (bulk_import_contract "users" 2
          [("users",
            ⟨[⟨"id", "INTEGER PRIMARY KEY AUTOINCREMENT"⟩, ⟨"name", "TEXT"⟩,
                ⟨"age", "INTEGER"⟩], [[.int 1, .text "Alice", .int 30]], 2⟩)]
          1 0 "" []).2.1 (by decide)
  · exact
      (bulk_import_contract "users" 2
          [("users",
            ⟨[⟨"id", "INTEGER PRIMARY KEY AUTOINCREMENT"⟩, ⟨"name", "TEXT"⟩,
                ⟨"age", "INTEGER"⟩], [[.int 1, .text "Alice", .int 30]], 2⟩)]
          1 0 "Bob" []).2.2.1 (by decide) (by decide)
  · exact
      ((bulk_import_contract "users" 2
          [("users",
            ⟨[⟨"id", "INTEGER PRIMARY KEY AUTOINCREMENT"⟩, ⟨"name", "TEXT"⟩,
                ⟨"age", "INTEGER"⟩], [], 1⟩)]
          0 0 "Alice 30" ["", "Bob"]).1).trans (by decide)
  · exact
      ((bulk_import_contract "x" 0 [] 1 1 "" []).2.2.2.2 (by decide)).trans
        (by decide)

/-- C10: the CLI dispatch chain tests the parsed `-d` id for Python
truthiness, so with no other operation flag set, `-d 0` falls through to
the final "No operation specified" error instead of executing a delete,
while any nonzero id dispatches to the manager's delete. -/
theorem cli_delete_dispatch (a : CliArgs)
    (h1 : a.tables = false) (h2 : a.list = false) (h3 : a.info = false)
    (h4 : a.dropTable = false) (h5 : a.schema = none) (h6 : a.create = none)
    (h7 : a.read = none) (h8 : a.update = none) :
    (a.delete = some 0 → a.importData = false → dispatch a = .noOperation) ∧
    (∀ n : Int, n ≠ 0 → a.delete = some n → dispatch a = .deleteRow n) := by
  constructor
  · intro hd hi
    simp [dispatch, h1, h2, h3, h4, h5, h6, h7, h8, hd, hi, pyTruthyList,
      pyTruthyInt]
  · intro n hn hd
    simp [dispatch, h1, h2, h3, h4, h5, h6, h7, h8, hd, pyTruthyList,
      pyTruthyInt, hn]

/-- Witness for C10: with only `-d` given, id 0 resolves to the
"no operation" error and id 3 resolves to a delete of row 3. -/
theorem cli_delete_dispatch_witness :
    dispatch ⟨false, false, false, false, none, none, none, none, some 0, false⟩ =
      .noOperation ∧
    dispatch ⟨false, false, false, false, none, none, none, none, some 3, false⟩ =
      .deleteRow 3 := by
  constructor
  · exact
      (cli_delete_dispatch
          ⟨false, false, false, false, none, none, none, none, some 0, false⟩
          rfl rfl rfl rfl rfl rfl rfl rfl).1 rfl rfl
  · exact
      (cli_delete_dispatch
          ⟨false, false, false, false, none, none, none, none, some 3, false⟩
          rfl rfl rfl rfl rfl rfl rfl rfl).2 3 (by decide) rfl

end DBBox
